import Mathlib

/-!
Shallow embedding of the GreedyBnbUsdt grid-trading program.

Prices, balances and percentages are modelled as exact rationals; the
Python `float` arithmetic of the source is linear and far from any
rounding tie at every comparison these theorems touch.  Python `None`
is modelled as `Option.none`; Python truthiness of a float value `x`
is `x ≠ 0`.
-/

namespace Greedy

/-- GridState mirrors the runtime fields of TraderGrid that the signal
checks read and write: base_price, grid_size, highest, lowest and
buying_or_selling (src/pkgs/traders/grid/trader.py, __init__). -/
structure GridState where
  basePrice : ℚ
  gridSize : ℚ
  highest : Option ℚ
  lowest : Option ℚ
  buyingOrSelling : Bool
deriving DecidableEq, Repr

/-- TraderGridConfig.flip_threshold: (grid_size / 5) / 100. -/
def flip_threshold (gridSize : ℚ) : ℚ := gridSize / 5 / 100

/-- TraderGrid._get_lower_band: base_price * (1 - grid_size / 100). -/
def lower_band (st : GridState) : ℚ := st.basePrice * (1 - st.gridSize / 100)

/-- TraderGrid._get_upper_band: base_price * (1 + grid_size / 100). -/
def upper_band (st : GridState) : ℚ := st.basePrice * (1 + st.gridSize / 100)

/-- TraderGrid._check_buy_signal.  `balanceOk` stands for the result of
the check_buy_balance call.  The source assigns `self.lowest = new_lowest`
only when the value changed; the resulting state is the same either way,
so the assignment is modelled unconditionally.  The guard
`if self.lowest and ...` is Python truthiness: lowest is non-None (always
true at that point) and non-zero. -/
def check_buy_signal (st : GridState) (price : ℚ) (balanceOk : Bool) :
    Bool × GridState :=
  if price ≤ lower_band st then
    let newLowest : ℚ :=
      match st.lowest with
      | none => price
      | some l => min l price
    let st2 : GridState := { st with buyingOrSelling := true, lowest := some newLowest }
    let threshold := flip_threshold st.gridSize
    if newLowest ≠ 0 ∧ newLowest * (1 + threshold) ≤ price then
      (balanceOk, { st2 with buyingOrSelling := false })
    else
      (false, st2)
  else
    (false, { st with buyingOrSelling := false })

/-- TraderGrid._check_sell_signal.  `positionRatio` stands for the value
returned by position_manager.get_position_ratio, `autoAdjust` for
cfg.AUTO_ADJUST_BASE_PRICE, `minRatio` for cfg.MIN_POSITION_RATIO and
`balanceOk` for the result of check_sell_balance. -/
def check_sell_signal (st : GridState) (price positionRatio : ℚ)
    (autoAdjust : Bool) (minRatio : ℚ) (balanceOk : Bool) :
    Bool × GridState :=
  let ub := upper_band st
  if autoAdjust = true ∧ ub ≤ price ∧ positionRatio < minRatio then
    (false, { st with basePrice := price, highest := none })
  else if ub ≤ price then
    let newHighest : ℚ :=
      match st.highest with
      | none => price
      | some h => max h price
    let st2 : GridState := { st with buyingOrSelling := true, highest := some newHighest }
    let threshold := flip_threshold st.gridSize
    if newHighest ≠ 0 ∧ price ≤ newHighest * (1 - threshold) then
      (balanceOk, { st2 with buyingOrSelling := false })
    else
      (false, st2)
  else
    (false, { st with buyingOrSelling := false })

/-- Iterated buy-signal checks over a tick-by-tick price sequence, with
the funds check always succeeding; returns the signal of each tick and
the final state. -/
def run_buy_checks : GridState → List ℚ → List Bool × GridState
  | st, [] => ([], st)
  | st, p :: ps =>
    let r := check_buy_signal st p true
    let rest := run_buy_checks r.2 ps
    (r.1 :: rest.1, rest.2)

/-- C1 counterexample: with base_price 100, grid 2 and tracked extrema
lowest = 95, highest = 103, a tick at price 99 (back inside the band
(98, 102)) through the sell check then the buy check leaves both extrema
set; neither is reset to none. -/
theorem c1_reentry_keeps_extrema_cex :
    ((check_buy_signal
        (check_sell_signal ⟨100, 2, some 103, some 95, true⟩ 99 (1/2) false (1/10) true).2
        99 true).2.lowest = some 95 ∧
     (check_buy_signal
        (check_sell_signal ⟨100, 2, some 103, some 95, true⟩ 99 (1/2) false (1/10) true).2
        99 true).2.highest = some 103) := by
  norm_num [check_buy_signal, check_sell_signal, lower_band, upper_band, flip_threshold]

/-- C1 amended: a signal-check tick at a price strictly inside the band
only clears buying_or_selling; highest and lowest are left unchanged
(the signal checks never reset them to none). -/
theorem c1_reentry_only_clears_monitor_flag (st : GridState)
    (price positionRatio minRatio : ℚ) (autoAdjust balanceOk : Bool) :
    (lower_band st < price →
       check_buy_signal st price balanceOk
         = (false, { st with buyingOrSelling := false })) ∧
    (price < upper_band st →
       check_sell_signal st price positionRatio autoAdjust minRatio balanceOk
         = (false, { st with buyingOrSelling := false })) := by
  constructor
  · intro h
    unfold check_buy_signal
    rw [if_neg (not_le.mpr h)]
  · intro h
    unfold check_sell_signal
    rw [if_neg, if_neg (not_le.mpr h)]
    rintro ⟨-, hub, -⟩
    exact absurd hub (not_le.mpr h)

/-- C1 witness: concrete instance of the amended theorem at price 99
inside the band of base 100, grid 2, with extrema 95 and 103 tracked. -/
theorem c1_witness :
    check_buy_signal ⟨100, 2, some 103, some 95, true⟩ 99 true
      = (false, ⟨100, 2, some 103, some 95, false⟩) :=
  (c1_reentry_only_clears_monitor_flag ⟨100, 2, some 103, some 95, true⟩
    99 (1/2) (1/10) false true).1 (by norm_num [lower_band])

/-- C2 counterexample: for base 100, grid 2, threshold 0.004, feeding
[97, 95, 96, 95.5, 96.2] into the buy check fires already at the third
tick (price 96 ≥ 95·1.004 = 95.38), not first at 96.2. -/
theorem c2_buy_fires_at_third_tick_cex :
    (run_buy_checks ⟨100, 2, none, none, false⟩ [97, 95, 96, 191/2, 481/5]).1
      = [false, false, true, true, true] := by
  norm_num [run_buy_checks, check_buy_signal, lower_band, flip_threshold]

/-- C2 amended: lowest tracks 97 then 95 over the first two ticks with
no signal, and the buy signal first fires at the third tick, price 96. -/
theorem c2_buy_episode_trace :
    (run_buy_checks ⟨100, 2, none, none, false⟩ [97, 95]).2.lowest = some 95 ∧
    (run_buy_checks ⟨100, 2, none, none, false⟩ [97, 95]).1 = [false, false] ∧
    (run_buy_checks ⟨100, 2, none, none, false⟩ [97, 95, 96]).1
      = [false, false, true] := by
  norm_num [run_buy_checks, check_buy_signal, lower_band, flip_threshold]

/-- Log-returns of consecutive closes: np.diff(np.log(prices)). -/
noncomputable def logReturns : List ℝ → List ℝ
  | [] => []
  | [_] => []
  | a :: b :: t => (Real.log b - Real.log a) :: logReturns (b :: t)

/-- Mean of a list of reals (np.mean; junk value 0/0 = 0 on []). -/
noncomputable def npMean (l : List ℝ) : ℝ := l.sum / l.length

/-- Value of np.std on a nonempty list: population standard deviation,
the square root of the mean squared deviation from the mean. -/
noncomputable def npStdVal (l : List ℝ) : ℝ :=
  Real.sqrt ((l.map (fun x => (x - npMean l) ^ 2)).sum / l.length)

/-- np.std: on an empty array numpy emits a warning and yields NaN,
modelled as none; otherwise the population standard deviation. -/
noncomputable def npStd (l : List ℝ) : Option ℝ :=
  if l = [] then none else some (npStdVal l)

/-- TraderGrid._calculate_volatility on the list of closing prices it
extracted from the fetched klines: returns 0 when the kline list is
empty, otherwise np.std of the log-returns times sqrt(24*365).  A NaN
float result (np.std of an empty diff) is modelled as none. -/
noncomputable def calculate_volatility (closes : List ℝ) : Option ℝ :=
  if closes = [] then some 0
  else (npStd (logReturns closes)).map (fun s => s * Real.sqrt (24 * 365))

theorem logReturns_length (l : List ℝ) : (logReturns l).length = l.length - 1 := by
  induction l with
  | nil => rfl
  | cons a t ih =>
    cases t with
    | nil => rfl
    | cons b t2 => simpa [logReturns] using ih

/-- C3 counterexample: for exactly one closing price the volatility
computation does not return 0 (np.std of the empty log-return array is
NaN, modelled as none). -/
theorem c3_single_close_not_zero_cex :
    calculate_volatility [100] ≠ some 0 := by
  simp [calculate_volatility, logReturns, npStd]

/-- C3 amended: volatility is 0 for an empty candle list, NaN (none)
for exactly one close, and for at least two closes it is the population
standard deviation of the log-returns annualized by sqrt(24*365). -/
theorem c3_volatility_cases :
    calculate_volatility ([] : List ℝ) = some 0 ∧
    (∀ c : ℝ, calculate_volatility [c] = none) ∧
    (∀ closes : List ℝ, 2 ≤ closes.length →
      calculate_volatility closes
        = some (npStdVal (logReturns closes) * Real.sqrt (24 * 365))) := by
  refine ⟨by simp [calculate_volatility], fun c => by simp [calculate_volatility, logReturns, npStd], ?_⟩
  intro closes h2
  have hne : closes ≠ [] := by
    intro h
    rw [h] at h2
    simp at h2
  have hlr : logReturns closes ≠ [] := by
    intro h
    have := logReturns_length closes
    rw [h] at this
    simp at this
    omega
  simp [calculate_volatility, hne, npStd, hlr]

/-- C3 witness: two equal closes exercise the length ≥ 2 branch of the
amended theorem. -/
theorem c3_witness :
    calculate_volatility [1, 1]
      = some (npStdVal (logReturns [1, 1]) * Real.sqrt (24 * 365)) :=
  c3_volatility_cases.2.2 [1, 1] (by simp)

/-- Volatility-to-interval table DYNAMIC_INTERVAL_PARAMS
["volatility_to_interval_hours"]: half-open ranges with interval hours. -/
def interval_rules : List ((ℚ × ℚ) × ℚ) :=
  [((0, 1/5), 1), ((1/5, 2/5), 1/2), ((2/5, 4/5), 1/4), ((4/5, 999), 1/8)]

/-- DYNAMIC_INTERVAL_PARAMS["default_interval_hours"]. -/
def default_interval_hours : ℚ := 1

/-- GRID_PARAMS["volatility_threshold"]["ranges"]: half-open volatility
ranges with grid size percentages. -/
def grid_ranges : List ((ℚ × ℚ) × ℚ) :=
  [((0, 1/5), 1), ((1/5, 2/5), 3/2), ((2/5, 3/5), 2), ((3/5, 4/5), 5/2),
   ((4/5, 1), 3), ((1, 6/5), 7/2), ((6/5, 999), 4)]

/-- Membership test of the loops: range[0] <= volatility < range[1]. -/
def inRange (v : ℚ) (r : (ℚ × ℚ) × ℚ) : Bool := decide (r.1.1 ≤ v ∧ v < r.1.2)

/-- Number of table buckets whose half-open range contains v. -/
def matchCount (rules : List ((ℚ × ℚ) × ℚ)) (v : ℚ) : ℕ :=
  (rules.filter (inRange v)).length

/-- First matching bucket value, mirroring the break-on-first-match
loops of _calculate_dynamic_interval_seconds and adjust_grid_size. -/
def firstMatch (rules : List ((ℚ × ℚ) × ℚ)) (v : ℚ) : Option ℚ :=
  (rules.find? (inRange v)).map (fun r => r.2)

/-- TraderGrid._calculate_dynamic_interval_seconds, interval-hours part:
first matching rule or the default. -/
def dynamic_interval_hours (v : ℚ) : ℚ :=
  (firstMatch interval_rules v).getD default_interval_hours

/-- TraderGrid._calculate_dynamic_interval_seconds: hours to seconds,
floored at 5 minutes. -/
def dynamic_interval_seconds (v : ℚ) : ℚ :=
  max (dynamic_interval_hours v * 3600) (5 * 60)

/-- TraderGrid.adjust_grid_size: first matching grid (INITIAL_GRID when
no range matches), clamped into [GRID_PARAMS.min, GRID_PARAMS.max] =
[1, 4]. -/
def adjust_grid_size (initialGrid v : ℚ) : ℚ :=
  max (min ((firstMatch grid_ranges v).getD initialGrid) 4) 1

theorem inRange_true {v lo hi : ℚ} (h1 : lo ≤ v) (h2 : v < hi) (g : ℚ) :
    inRange v ((lo, hi), g) = true := by
  simpa [inRange] using ⟨h1, h2⟩

theorem inRange_false_lt {v lo : ℚ} (h : v < lo) (hi g : ℚ) :
    inRange v ((lo, hi), g) = false := by
  simp only [inRange, decide_eq_false_iff_not]
  rintro ⟨h1, -⟩
  linarith

theorem inRange_false_ge {v hi : ℚ} (h : hi ≤ v) (lo g : ℚ) :
    inRange v ((lo, hi), g) = false := by
  simp only [inRange, decide_eq_false_iff_not]
  rintro ⟨-, h2⟩
  linarith

theorem buckets_partition (v : ℚ) (h0 : 0 ≤ v) (h999 : v < 999) :
    matchCount interval_rules v = 1 ∧ matchCount grid_ranges v = 1 := by
  rcases lt_or_le v (1/5) with a1 | a1
  · constructor
    · simp [-one_div, matchCount, interval_rules, List.filter_cons, inRange_true h0 a1,
        inRange_false_lt a1, inRange_false_lt (show v < (2:ℚ)/5 by linarith),
        inRange_false_lt (show v < (4:ℚ)/5 by linarith)]
    · simp [-one_div, matchCount, grid_ranges, List.filter_cons, inRange_true h0 a1,
        inRange_false_lt a1, inRange_false_lt (show v < (2:ℚ)/5 by linarith),
        inRange_false_lt (show v < (3:ℚ)/5 by linarith),
        inRange_false_lt (show v < (4:ℚ)/5 by linarith),
        inRange_false_lt (show v < (1:ℚ) by linarith),
        inRange_false_lt (show v < (6:ℚ)/5 by linarith)]
  · rcases lt_or_le v (2/5) with a2 | a2
    · constructor
      · simp [-one_div, matchCount, interval_rules, List.filter_cons, inRange_true a1 a2,
          inRange_false_ge a1, inRange_false_lt a2,
          inRange_false_lt (show v < (4:ℚ)/5 by linarith)]
      · simp [-one_div, matchCount, grid_ranges, List.filter_cons, inRange_true a1 a2,
          inRange_false_ge a1, inRange_false_lt a2,
          inRange_false_lt (show v < (3:ℚ)/5 by linarith),
          inRange_false_lt (show v < (4:ℚ)/5 by linarith),
          inRange_false_lt (show v < (1:ℚ) by linarith),
          inRange_false_lt (show v < (6:ℚ)/5 by linarith)]
    · rcases lt_or_le v (3/5) with a3 | a3
      · constructor
        · simp [-one_div, matchCount, interval_rules, List.filter_cons,
            inRange_true a2 (show v < (4:ℚ)/5 by linarith),
            inRange_false_ge a1, inRange_false_ge a2,
            inRange_false_lt (show v < (4:ℚ)/5 by linarith)]
        · simp [-one_div, matchCount, grid_ranges, List.filter_cons, inRange_true a2 a3,
            inRange_false_ge a1, inRange_false_ge a2, inRange_false_lt a3,
            inRange_false_lt (show v < (4:ℚ)/5 by linarith),
            inRange_false_lt (show v < (1:ℚ) by linarith),
            inRange_false_lt (show v < (6:ℚ)/5 by linarith)]
      · rcases lt_or_le v (4/5) with a4 | a4
        · constructor
          · simp [-one_div, matchCount, interval_rules, List.filter_cons, inRange_true a2 a4,
              inRange_false_ge a1, inRange_false_ge a2, inRange_false_lt a4]
          · simp [-one_div, matchCount, grid_ranges, List.filter_cons, inRange_true a3 a4,
              inRange_false_ge a1, inRange_false_ge a2, inRange_false_ge a3,
              inRange_false_lt a4,
              inRange_false_lt (show v < (1:ℚ) by linarith),
              inRange_false_lt (show v < (6:ℚ)/5 by linarith)]
        · rcases lt_or_le v 1 with a5 | a5
          · constructor
            · simp [-one_div, matchCount, interval_rules, List.filter_cons,
                inRange_true a4 h999,
                inRange_false_ge a1, inRange_false_ge a2, inRange_false_ge a4]
            · simp [-one_div, matchCount, grid_ranges, List.filter_cons, inRange_true a4 a5,
                inRange_false_ge a1, inRange_false_ge a2, inRange_false_ge a3,
                inRange_false_ge a4, inRange_false_lt a5,
                inRange_false_lt (show v < (6:ℚ)/5 by linarith)]
          · rcases lt_or_le v (6/5) with a6 | a6
            · constructor
              · simp [-one_div, matchCount, interval_rules, List.filter_cons,
                  inRange_true a4 h999,
                  inRange_false_ge a1, inRange_false_ge a2, inRange_false_ge a4]
              · simp [-one_div, matchCount, grid_ranges, List.filter_cons, inRange_true a5 a6,
                  inRange_false_ge a1, inRange_false_ge a2, inRange_false_ge a3,
                  inRange_false_ge a4, inRange_false_ge a5, inRange_false_lt a6]
            · constructor
              · simp [-one_div, matchCount, interval_rules, List.filter_cons,
                  inRange_true a4 h999,
                  inRange_false_ge a1, inRange_false_ge a2, inRange_false_ge a4]
              · simp [-one_div, matchCount, grid_ranges, List.filter_cons, inRange_true a6 h999,
                  inRange_false_ge a1, inRange_false_ge a2, inRange_false_ge a3,
                  inRange_false_ge a4, inRange_false_ge a5, inRange_false_ge a6]

/-- C4 counterexample: v = 999 is nonnegative but matches no bucket in
either table (both tables stop short of 999 with half-open ranges), so
the buckets do not partition [0, ∞). -/
theorem c4_no_bucket_at_999_cex :
    (0 : ℚ) ≤ 999 ∧ matchCount interval_rules 999 = 0
      ∧ matchCount grid_ranges 999 = 0 := by
  refine ⟨by norm_num, ?_, ?_⟩
  · simp [-one_div, matchCount, interval_rules, List.filter_cons,
      inRange_false_ge (show (1:ℚ)/5 ≤ 999 by norm_num),
      inRange_false_ge (show (2:ℚ)/5 ≤ 999 by norm_num),
      inRange_false_ge (show (4:ℚ)/5 ≤ 999 by norm_num),
      inRange_false_ge (show (999:ℚ) ≤ 999 by norm_num)]
  · simp [-one_div, matchCount, grid_ranges, List.filter_cons,
      inRange_false_ge (show (1:ℚ)/5 ≤ 999 by norm_num),
      inRange_false_ge (show (2:ℚ)/5 ≤ 999 by norm_num),
      inRange_false_ge (show (3:ℚ)/5 ≤ 999 by norm_num),
      inRange_false_ge (show (4:ℚ)/5 ≤ 999 by norm_num),
      inRange_false_ge (show (1:ℚ) ≤ 999 by norm_num),
      inRange_false_ge (show (6:ℚ)/5 ≤ 999 by norm_num),
      inRange_false_ge (show (999:ℚ) ≤ 999 by norm_num)]

/-- C4 amended: for 0 ≤ v < 999 exactly one bucket of each table
matches, and the quoted selections hold: v = 0.35 gives grid 1.5 and
interval 0.5 h; v = 0.05 gives grid 1.0 and interval 1 h.  At and above
v = 999 no bucket matches and the code falls back to the defaults. -/
theorem c4_bucket_selection :
    (∀ v : ℚ, 0 ≤ v → v < 999 →
      matchCount interval_rules v = 1 ∧ matchCount grid_ranges v = 1) ∧
    dynamic_interval_hours (7/20) = 1/2 ∧ adjust_grid_size 2 (7/20) = 3/2 ∧
    dynamic_interval_hours (1/20) = 1 ∧ adjust_grid_size 2 (1/20) = 1 := by
  refine ⟨buckets_partition, ?_, ?_, ?_, ?_⟩ <;>
    norm_num [dynamic_interval_hours, adjust_grid_size, firstMatch, List.find?,
      interval_rules, grid_ranges, default_interval_hours, inRange]

/-- C4 witness: the partition statement of the amended theorem applied
at v = 0.35. -/
theorem c4_witness :
    matchCount interval_rules (7/20) = 1 ∧ matchCount grid_ranges (7/20) = 1 :=
  c4_bucket_selection.1 (7/20) (by norm_num) (by norm_num)

/-- ManagerAdvancedRisk.multi_layer_check as a function of the position
ratio it fetched.  The source returns True in the two out-of-band
branches and otherwise falls off the end of the function, which in
Python returns None; the result is therefore Option Bool with none for
the implicit None. -/
def multi_layer_check (minRatio maxRatio positionRatio : ℚ) : Option Bool :=
  if positionRatio < minRatio then some true
  else if maxRatio < positionRatio then some true
  else none

/-- C5 counterexample: with the default bounds 0.1 and 0.9 and the
in-band ratio 0.5, multi_layer_check returns None (falls off the end of
the function), not False. -/
theorem c5_in_band_returns_none_cex :
    (0:ℚ) ≤ 1/2 ∧ (1/2:ℚ) ≤ 1 ∧
    multi_layer_check (1/10) (9/10) (1/2) ≠ some false := by
  refine ⟨by norm_num, by norm_num, ?_⟩
  intro h
  norm_num [multi_layer_check] at h
  exact Option.noConfusion h

/-- C5 amended: for every ratio in [0,1] the check returns True exactly
when the ratio is below the minimum or above the maximum, and returns
None (a falsy value, but not False) otherwise. -/
theorem c5_multi_layer_check_cases (minRatio maxRatio r : ℚ)
    (h0 : 0 ≤ r) (h1 : r ≤ 1) :
    (multi_layer_check minRatio maxRatio r = some true
      ↔ (r < minRatio ∨ maxRatio < r)) ∧
    (¬(r < minRatio ∨ maxRatio < r) →
      multi_layer_check minRatio maxRatio r = none) := by
  unfold multi_layer_check
  constructor
  · constructor
    · intro h
      by_contra hco
      push_neg at hco
      rw [if_neg (not_lt.mpr hco.1), if_neg (not_lt.mpr hco.2)] at h
      exact Option.noConfusion h
    · rintro (h | h)
      · rw [if_pos h]
      · rcases lt_or_le r minRatio with h2 | h2
        · rw [if_pos h2]
        · rw [if_neg (not_lt.mpr h2), if_pos h]
  · intro h
    push_neg at h
    rw [if_neg (not_lt.mpr h.1), if_neg (not_lt.mpr h.2)]

/-- C5 witness: the amended theorem applied at the defaults with the
out-of-band ratio 0.05 and the in-band ratio 0.5. -/
theorem c5_witness :
    multi_layer_check (1/10) (9/10) (1/20) = some true ∧
    multi_layer_check (1/10) (9/10) (1/2) = none :=
  ⟨(c5_multi_layer_check_cases (1/10) (9/10) (1/20) (by norm_num) (by norm_num)).1.mpr
      (Or.inl (by norm_num)),
   (c5_multi_layer_check_cases (1/10) (9/10) (1/2) (by norm_num) (by norm_num)).2
      (by norm_num)⟩

/-- Balance environment read by ManagerPosition.ensure_trading_funds:
latest price, spot free balances and funding (savings) balances of the
quote and base currencies. -/
structure FundsEnv where
  price : ℚ
  spotQuote : ℚ
  spotBase : ℚ
  fundQuote : ℚ
  fundBase : ℚ
deriving DecidableEq

/-- Order side after side.upper() normalization. -/
inductive Side where
  | buy
  | sell
deriving DecidableEq

/-- Amount of the side's required currency: the quote value itself for a
buy; for a sell, amount_value / current_price when the price is
positive, else 0. -/
def required_amount (env : FundsEnv) (side : Side) (amountValue : ℚ) : ℚ :=
  match side with
  | .buy => amountValue
  | .sell => if 0 < env.price then amountValue / env.price else 0

/-- Spot free balance of the side's required currency. -/
def spot_available (env : FundsEnv) (side : Side) : ℚ :=
  match side with
  | .buy => env.spotQuote
  | .sell => env.spotBase

/-- Savings (funding) balance of the side's required currency. -/
def funding_available (env : FundsEnv) (side : Side) : ℚ :=
  match side with
  | .buy => env.fundQuote
  | .sell => env.fundBase

/-- ManagerPosition.ensure_trading_funds: result flag together with the
transfer_to_spot request it issues (none when no transfer is issued);
the modelled transfer succeeds, as the claim is about which request is
made.  Mirrors the source branch for branch in each side. -/
def ensure_trading_funds (env : FundsEnv) (side : Side) (amountValue : ℚ) :
    Bool × Option ℚ :=
  match side with
  | .buy =>
    let needed := amountValue
    if needed ≤ env.spotQuote then (true, none)
    else if env.spotQuote + env.fundQuote < needed then (false, none)
    else (true, some ((needed - env.spotQuote) * (21/20)))
  | .sell =>
    let needed := if 0 < env.price then amountValue / env.price else 0
    if needed ≤ env.spotBase then (true, none)
    else if env.spotBase + env.fundBase < needed then (false, none)
    else (true, some ((needed - env.spotBase) * (21/20)))

/-- C6: for every side and required value, a covering spot balance means
success with no transfer; spot plus savings falling short (with a
nonnegative savings balance) means failure with no transfer; otherwise
exactly the shortfall times 1.05 is pulled from savings. -/
theorem c6_ensure_trading_funds_cases (env : FundsEnv) (side : Side)
    (amountValue : ℚ) :
    (required_amount env side amountValue ≤ spot_available env side →
      ensure_trading_funds env side amountValue = (true, none)) ∧
    (0 ≤ funding_available env side →
     spot_available env side + funding_available env side
        < required_amount env side amountValue →
      ensure_trading_funds env side amountValue = (false, none)) ∧
    (spot_available env side < required_amount env side amountValue →
     required_amount env side amountValue
        ≤ spot_available env side + funding_available env side →
      ensure_trading_funds env side amountValue
        = (true, some ((required_amount env side amountValue
            - spot_available env side) * (21/20)))) := by
  cases side <;>
    simp only [ensure_trading_funds, required_amount, spot_available,
      funding_available] <;>
    refine ⟨fun h1 => by rw [if_pos h1], fun hf h2 => ?_, fun h3 h4 => ?_⟩ <;>
    first
    | (rw [if_neg (not_le.mpr (by linarith)), if_pos h2])
    | (rw [if_neg (not_le.mpr h3), if_neg (not_lt.mpr h4)])

/-- C6 witness: concrete instances of all three branches for a buy with
price 10: spot 100 covers 50; spot 10 plus savings 20 cannot cover 50;
spot 10 plus savings 100 covers 50 with transfer (50-10)*1.05 = 42. -/
theorem c6_witness :
    ensure_trading_funds ⟨10, 100, 0, 0, 0⟩ .buy 50 = (true, none) ∧
    ensure_trading_funds ⟨10, 10, 0, 20, 0⟩ .buy 50 = (false, none) ∧
    ensure_trading_funds ⟨10, 10, 0, 100, 0⟩ .buy 50 = (true, some 42) :=
  ⟨(c6_ensure_trading_funds_cases ⟨10, 100, 0, 0, 0⟩ .buy 50).1
      (by norm_num [required_amount, spot_available]),
   (c6_ensure_trading_funds_cases ⟨10, 10, 0, 20, 0⟩ .buy 50).2.1
      (by norm_num [funding_available])
      (by norm_num [required_amount, spot_available, funding_available]),
   by
    have := (c6_ensure_trading_funds_cases ⟨10, 10, 0, 100, 0⟩ .buy 50).2.2
      (by norm_num [required_amount, spot_available])
      (by norm_num [required_amount, spot_available, funding_available])
    rw [this]
    norm_num [required_amount, spot_available]⟩

/-- ManagerPosition.get_position_ratio as a function of the fetched
position value and total assets: returns 0 when total assets are not
strictly positive, the quotient otherwise. -/
def get_position_ratio (positionValue totalAssets : ℚ) : ℚ :=
  if totalAssets ≤ 0 then 0 else positionValue / totalAssets

/-- ManagerAdvancedRisk._get_position_ratio as a function of the fetched
position value and combined USDT balance: total is their sum, ratio 0
when that total equals 0, the quotient otherwise. -/
def adv_get_position_ratio (positionValue usdtBalance : ℚ) : ℚ :=
  if positionValue + usdtBalance = 0 then 0
  else positionValue / (positionValue + usdtBalance)

/-- C8 counterexample: with total assets 0 the ratio computation does
not abort; it returns the ratio value 0, and the consuming risk check
proceeds with it and produces a verdict (True, the min-position branch). -/
theorem c8_zero_total_ratio_consumed_cex :
    get_position_ratio 5 0 = 0 ∧
    multi_layer_check (1/10) (9/10) (get_position_ratio 5 0) = some true := by
  norm_num [get_position_ratio, multi_layer_check]

/-- C8 amended: a zero or non-positive computed total makes both ratio
functions return the ratio 0 instead of aborting, and consumers proceed
with that 0; with a positive minimum bound the risk check then reports
True (min-position protection) rather than aborting. -/
theorem c8_zero_total_yields_zero_ratio (positionValue usdtBalance
    totalAssets minRatio maxRatio : ℚ)
    (hta : totalAssets ≤ 0) (hmin : 0 < minRatio) :
    get_position_ratio positionValue totalAssets = 0 ∧
    (positionValue + usdtBalance = 0 →
      adv_get_position_ratio positionValue usdtBalance = 0) ∧
    multi_layer_check minRatio maxRatio
      (get_position_ratio positionValue totalAssets) = some true := by
  have h0 : get_position_ratio positionValue totalAssets = 0 := by
    unfold get_position_ratio
    rw [if_pos hta]
  refine ⟨h0, fun hz => ?_, ?_⟩
  · unfold adv_get_position_ratio
    rw [if_pos hz]
  · rw [h0]
    unfold multi_layer_check
    rw [if_pos hmin]

/-- C8 witness: the amended theorem at position value 5, zero balances
and the default risk bounds. -/
theorem c8_witness :
    get_position_ratio 5 0 = 0 ∧
    ((5:ℚ) + (-5) = 0 → adv_get_position_ratio 5 (-5) = 0) ∧
    multi_layer_check (1/10) (9/10) (get_position_ratio 5 0) = some true :=
  c8_zero_total_yields_zero_ratio 5 (-5) 0 (1/10) (9/10) (by norm_num) (by norm_num)

/-- Gateway behaviour of one retry iteration of TraderGrid.execute_order,
covering the source's branches on well-typed gateway responses:
order book fetch fails or is incomplete; ensure_trading_funds returns
false; the placed order is reported closed; it is reported unfilled and
the cancel succeeds; the cancel raises but the re-fetched order is
closed; the cancel raises and the re-check does not show closed;
create_order raises with an insufficient-balance message; create_order
raises with any other message. -/
inductive AttemptOutcome where
  | bookFail
  | fundsFail
  | filledNow (price : ℚ)
  | unfilledCancelOk
  | unfilledCancelErrClosed (price : ℚ)
  | unfilledCancelErrOpen
  | createErrInsufficient
  | createErrOther
deriving DecidableEq

/-- Return value of execute_order: the filled order (truthy) or False. -/
inductive ExecResult where
  | success (price : ℚ)
  | failure
deriving DecidableEq

/-- Mutable state touched by execute_order: base_price, the side's
active_orders slot, plus the audit trail of order ids placed via
create_order and ids for which a cancel was acknowledged. -/
structure ExecState where
  basePrice : ℚ
  active : Option ℕ
  placed : List ℕ
  cancelled : List ℕ
deriving DecidableEq

/-- max_retries of execute_order. -/
def max_retries : ℕ := 10

/-- Retry loop of TraderGrid.execute_order.  `g k` is the gateway
behaviour of the attempt with retry_count = k; order ids are modelled by
the attempt index.  Fuel counts the remaining retries, so the loop runs
while retry_count < max_retries exactly as in the source. -/
def execute_order_loop (g : ℕ → AttemptOutcome) :
    ℕ → ℕ → ExecState → ExecResult × ExecState
  | 0, _, st => (.failure, st)
  | fuel + 1, k, st =>
    match g k with
    | .bookFail => execute_order_loop g fuel (k + 1) st
    | .fundsFail => (.failure, st)
    | .filledNow p =>
      (.success p,
        { st with basePrice := p, active := none, placed := st.placed ++ [k] })
    | .unfilledCancelOk =>
      execute_order_loop g fuel (k + 1)
        { st with
          active := none,
          placed := st.placed ++ [k],
          cancelled := st.cancelled ++ [k] }
    | .unfilledCancelErrClosed p =>
      (.success p,
        { st with basePrice := p, active := none, placed := st.placed ++ [k] })
    | .unfilledCancelErrOpen =>
      execute_order_loop g fuel (k + 1)
        { st with active := none, placed := st.placed ++ [k] }
    | .createErrInsufficient => (.failure, st)
    | .createErrOther => execute_order_loop g fuel (k + 1) st

/-- TraderGrid.execute_order for one side: starts with retry_count 0, an
empty audit trail and no active order. -/
def execute_order (g : ℕ → AttemptOutcome) (basePrice : ℚ) :
    ExecResult × ExecState :=
  execute_order_loop g max_retries 0 ⟨basePrice, none, [], []⟩

/-- C7: against a gateway that always reports the placed order unfilled
(with order book, placement and cancellation succeeding), execute_order
returns failure, places exactly max_retries = 10 orders, cancels every
one of them, and leaves no active order id. -/
theorem c7_retry_budget (basePrice : ℚ) :
    (execute_order (fun _ => .unfilledCancelOk) basePrice).1 = .failure ∧
    (execute_order (fun _ => .unfilledCancelOk) basePrice).2.placed
      = [0, 1, 2, 3, 4, 5, 6, 7, 8, 9] ∧
    (execute_order (fun _ => .unfilledCancelOk) basePrice).2.placed.length
      = max_retries ∧
    (execute_order (fun _ => .unfilledCancelOk) basePrice).2.cancelled
      = [0, 1, 2, 3, 4, 5, 6, 7, 8, 9] ∧
    (execute_order (fun _ => .unfilledCancelOk) basePrice).2.active = none :=
  ⟨rfl, rfl, rfl, rfl, rfl⟩

theorem execute_order_loop_failure_basePrice (g : ℕ → AttemptOutcome) :
    ∀ fuel k st, (execute_order_loop g fuel k st).1 = .failure →
      (execute_order_loop g fuel k st).2.basePrice = st.basePrice := by
  intro fuel
  induction fuel with
  | zero => intro k st _; rfl
  | succ n ih =>
    intro k st h
    unfold execute_order_loop at h ⊢
    cases hg : g k <;> rw [hg] at h
    case bookFail => exact ih (k + 1) st h
    case filledNow p => exact ExecResult.noConfusion h
    case unfilledCancelOk => exact ih (k + 1) _ h
    case unfilledCancelErrClosed p => exact ExecResult.noConfusion h
    case unfilledCancelErrOpen => exact ih (k + 1) _ h
    case createErrOther => exact ih (k + 1) st h

/-- C10: whenever execute_order returns False — funds unavailable, an
insufficiency error, or retries exhausted — base_price still holds the
value it had on entry; it is reassigned only in branches that return the
filled order. -/
theorem c10_failure_preserves_base_price (g : ℕ → AttemptOutcome)
    (basePrice : ℚ) (h : (execute_order g basePrice).1 = .failure) :
    (execute_order g basePrice).2.basePrice = basePrice :=
  execute_order_loop_failure_basePrice g max_retries 0 ⟨basePrice, none, [], []⟩ h

/-- C10 witness: a gateway whose funds check fails immediately returns
failure and leaves base price 100 unchanged. -/
theorem c10_witness :
    (execute_order (fun _ => .fundsFail) 100).1 = .failure ∧
    (execute_order (fun _ => .fundsFail) 100).2.basePrice = 100 :=
  ⟨rfl, c10_failure_preserves_base_price (fun _ => .fundsFail) 100 rfl⟩

/-- Daily candle fields used by the S1 level refresh: high (index 2)
and low (index 3). -/
structure Candle where
  high : ℚ
  low : ℚ
deriving DecidableEq

/-- S1 level state: s1_daily_high and s1_daily_low. -/
structure S1Levels where
  dailyHigh : Option ℚ
  dailyLow : Option ℚ
deriving DecidableEq

/-- Number of daily candles requested by the refresh: lookback + 2. -/
def s1_fetch_limit (lookback : ℕ) : ℕ := lookback + 2

/-- Python max over a list, none on the empty list (where max() raises). -/
def list_max : List ℚ → Option ℚ
  | [] => none
  | x :: xs =>
    match list_max xs with
    | none => some x
    | some m => some (max x m)

/-- Python min over a list, none on the empty list (where min() raises). -/
def list_min : List ℚ → Option ℚ
  | [] => none
  | x :: xs =>
    match list_min xs with
    | none => some x
    | some m => some (min x m)

/-- ActionerS1._fetch_and_calculate_s1_levels as a function of the
returned klines: skipped when fewer than lookback+1 candles arrive
(the empty-list guard is subsumed); otherwise the slice
klines[-(lookback+1):-1] — here take (n-1) then drop (n-(lookback+1)) —
feeds max of highs and min of lows.  The impossible empty-slice case
(max() raising, caught by the handler) is a no-op. -/
def fetch_and_calculate_s1_levels (lookback : ℕ) (st : S1Levels)
    (klines : List Candle) : Bool × S1Levels :=
  if klines.length < lookback + 1 then (false, st)
  else
    let relevant :=
      (klines.take (klines.length - 1)).drop (klines.length - (lookback + 1))
    if relevant.length < lookback then (false, st)
    else
      match list_max (relevant.map Candle.high),
            list_min (relevant.map Candle.low) with
      | some h, some l => (true, ⟨some h, some l⟩)
      | _, _ => (false, st)

theorem list_max_isSome {l : List ℚ} (h : l ≠ []) : ∃ m, list_max l = some m := by
  cases l with
  | nil => exact absurd rfl h
  | cons x xs =>
    cases hx : list_max xs with
    | none => exact ⟨x, by simp [list_max, hx]⟩
    | some m => exact ⟨max x m, by simp [list_max, hx]⟩

theorem list_min_isSome {l : List ℚ} (h : l ≠ []) : ∃ m, list_min l = some m := by
  cases l with
  | nil => exact absurd rfl h
  | cons x xs =>
    cases hx : list_min xs with
    | none => exact ⟨x, by simp [list_min, hx]⟩
    | some m => exact ⟨min x m, by simp [list_min, hx]⟩

/-- C9: the refresh requests lookback+2 candles; with fewer than
lookback+1 returned it is a no-op; otherwise it sets the levels to the
max high and min low of exactly the trailing lookback candles of the
list with its most recent (unclosed) candle removed. -/
theorem c9_s1_level_refresh (lookback : ℕ) (st : S1Levels)
    (klines : List Candle) (hL : 0 < lookback) :
    s1_fetch_limit lookback = lookback + 2 ∧
    (klines.length < lookback + 1 →
      fetch_and_calculate_s1_levels lookback st klines = (false, st)) ∧
    (lookback + 1 ≤ klines.length →
      (klines.dropLast.drop (klines.dropLast.length - lookback)).length
          = lookback ∧
      fetch_and_calculate_s1_levels lookback st klines
        = (true,
            ⟨list_max ((klines.dropLast.drop
                (klines.dropLast.length - lookback)).map Candle.high),
             list_min ((klines.dropLast.drop
                (klines.dropLast.length - lookback)).map Candle.low)⟩)) := by
  refine ⟨rfl, fun h => by unfold fetch_and_calculate_s1_levels; rw [if_pos h], ?_⟩
  intro hn
  have hdrop : klines.dropLast = klines.take (klines.length - 1) :=
    klines.dropLast_eq_take
  have hlen : klines.dropLast.length = klines.length - 1 := by
    rw [hdrop, List.length_take]
    omega
  have hidx : klines.dropLast.length - lookback
      = klines.length - (lookback + 1) := by omega
  have hrel :
      klines.dropLast.drop (klines.dropLast.length - lookback)
        = (klines.take (klines.length - 1)).drop
            (klines.length - (lookback + 1)) := by
    rw [hidx, hdrop]
  have hrellen :
      (klines.dropLast.drop (klines.dropLast.length - lookback)).length
        = lookback := by
    rw [List.length_drop, hlen]
    omega
  refine ⟨hrellen, ?_⟩
  have hne : klines.dropLast.drop (klines.dropLast.length - lookback) ≠ [] := by
    intro hnil
    rw [hnil] at hrellen
    simp at hrellen
    omega
  have hmaph : (klines.dropLast.drop
      (klines.dropLast.length - lookback)).map Candle.high ≠ [] := by
    rw [Ne, List.map_eq_nil_iff]
    exact hne
  have hmapl : (klines.dropLast.drop
      (klines.dropLast.length - lookback)).map Candle.low ≠ [] := by
    rw [Ne, List.map_eq_nil_iff]
    exact hne
  obtain ⟨mh, hmh⟩ := list_max_isSome hmaph
  obtain ⟨ml, hml⟩ := list_min_isSome hmapl
  simp only [fetch_and_calculate_s1_levels]
  rw [if_neg (not_lt.mpr hn), ← hrel, hrellen, if_neg (lt_irrefl lookback),
    hmh, hml]

/-- C9 witness: lookback 1 with three candles keeps exactly the middle
candle (the trailing closed one), and with a single candle the refresh
is a no-op. -/
theorem c9_witness :
    fetch_and_calculate_s1_levels 1 ⟨none, none⟩ [⟨5, 1⟩] = (false, ⟨none, none⟩) :=
  (c9_s1_level_refresh 1 ⟨none, none⟩ [⟨5, 1⟩] (by norm_num)).2.1 (by norm_num)

end Greedy
